import Mathlib

/-!
Shallow embedding of the VIP load-balancing SDN controller
(`ryu_controller.py`, classes `SDNRest` and `SDNRestController`).

The controller is an event-driven state machine: OpenFlow events
(packet-in, stats replies, state changes, features replies) and REST
calls each take the controller state to a new state, possibly emitting
OpenFlow messages (flow-mods and packet-outs).  The embedding models the
mutable `SDNRest` instance as a `Controller` record, each handler as a
pure function `Controller → ... → Controller × List Msg` (wrapped in
`Option` where the Python code can raise an uncaught exception), and the
external DRL agent / server monitor as an outcome oracle `AgentCall`
(the agent is an external capability; only the outcome of the guarded
call — absent / returned action / raised exception — is visible to the
controller logic).

Python dicts are modelled as insertion-ordered association lists, which
matches `list(d.keys())` indexing used by the source.  Python's `sorted`
(a stable comparison sort on strings and integers) is modelled by a
structurally recursive insertion sort over the same order: lexicographic
code-point order for strings, numeric order for integers.
-/

namespace SDNLB

/-! ### Python dict / sorted primitives -/

/-- Lookup in an insertion-ordered association list (Python `d[k]` / `d.get(k)`). -/
def dictGet? {α β : Type} [DecidableEq α] : List (α × β) → α → Option β
  | [], _ => none
  | (k', v) :: rest, k => if k' = k then some v else dictGet? rest k

/-- Assignment `d[k] = v` on an insertion-ordered association list: an existing
key is updated in place, a new key is appended. -/
def dictSet {α β : Type} [DecidableEq α] : List (α × β) → α → β → List (α × β)
  | [], k, v => [(k, v)]
  | (k', v') :: rest, k, v =>
    if k' = k then (k', v) :: rest else (k', v') :: dictSet rest k v

/-- Lexicographic Boolean order on character lists (Python string comparison
compares code points left to right). -/
def charListLe : List Char → List Char → Bool
  | [], _ => true
  | _ :: _, [] => false
  | a :: as, b :: bs => if a = b then charListLe as bs else decide (a < b)

/-- Python `<=` on strings: lexicographic code-point order. -/
def strLe (a b : String) : Bool := charListLe a.data b.data

/-- One step of insertion sort. -/
def insertSorted {α : Type} (le : α → α → Bool) (x : α) : List α → List α
  | [] => [x]
  | y :: ys => if le x y then x :: y :: ys else y :: insertSorted le x ys

/-- Python `sorted(l)` for a Boolean total preorder, as an insertion sort. -/
def pySorted {α : Type} (le : α → α → Bool) : List α → List α
  | [] => []
  | y :: ys => insertSorted le y (pySorted le ys)

/-! ### Protocol constants (from `ryu.ofproto.ofproto_v1_3` / `ryu.lib.packet`) -/

def ETH_TYPE_LLDP : Nat := 0x88cc
def ETH_TYPE_IPV6 : Nat := 0x86dd
def ETH_TYPE_ARP : Nat := 0x0806
def ETH_TYPE_IP : Nat := 0x0800
def ARP_REQUEST : Nat := 1
def ARP_REPLY : Nat := 2
def OFPP_FLOOD : Nat := 0xfffffffb
def OFPP_CONTROLLER : Nat := 0xfffffffd
def OFPP_LOCAL : Nat := 0xfffffffe

/-! ### Data model -/

/-- One entry of `self.server_pool`: `{'mac': ..., 'port': ..., 'switch': ...}`. -/
structure ServerInfo where
  mac : String
  port : Nat
  switch : Nat
deriving DecidableEq, Repr

/-- The `self.vip_stats` dictionary. -/
structure VipStats where
  total_requests : Nat
  arp_requests : Nat
  /-- `server_selections`: backend address to selection count. -/
  server_selections : List (String × Nat)
  /-- `agent_decisions`: recorded `(client_ip, selected_server, action)` triples. -/
  agent_decisions : List (String × String × Nat)
deriving DecidableEq, Repr

/-- Mutable state of the `SDNRest` application instance.  Nested Python dicts
(`mac_to_port[dpid][mac]`, `host_ports[dpid][ip]`) are flattened to pair keys;
`_datapaths` keeps only the registered dpids (the handles are opaque). -/
structure Controller where
  datapaths : List Nat
  port_stats : List ((Nat × Nat) × Nat)
  flow_stats : List ((Nat × String) × (Nat × Nat))
  port_desc : List (Nat × List Nat)
  mac_to_port : List ((Nat × String) × Nat)
  host_ports : List ((Nat × String) × Nat)
  server_pool : List (String × ServerInfo)
  vip_sessions : List ((String × Nat) × String)
  training_mode : Bool
  vip_stats : VipStats
deriving DecidableEq, Repr

def VIRTUAL_IP : String := "10.0.0.100"
def VIRTUAL_MAC : String := "aa:aa:aa:aa:aa:aa"

/-- The state built by `SDNRest.__init__`. -/
def initController : Controller where
  datapaths := []
  port_stats := []
  flow_stats := []
  port_desc := []
  mac_to_port := []
  host_ports :=
    [((200, "10.0.0.1"), 3), ((200, "10.0.0.2"), 4),
     ((201, "10.0.0.3"), 3), ((201, "10.0.0.4"), 4),
     ((202, "10.0.0.5"), 3), ((202, "10.0.0.6"), 4),
     ((203, "10.0.0.7"), 3), ((203, "10.0.0.8"), 4),
     ((204, "10.0.0.9"), 3), ((204, "10.0.0.10"), 4),
     ((205, "10.0.0.11"), 3), ((205, "10.0.0.12"), 4),
     ((206, "10.0.0.13"), 3), ((206, "10.0.0.14"), 4),
     ((207, "10.0.0.15"), 3), ((207, "10.0.0.16"), 4)]
  server_pool :=
    [("10.0.0.1", ⟨"00:00:00:00:00:01", 3, 200⟩),
     ("10.0.0.2", ⟨"00:00:00:00:00:02", 4, 200⟩),
     ("10.0.0.3", ⟨"00:00:00:00:00:03", 3, 201⟩)]
  vip_sessions := []
  training_mode := false
  vip_stats := ⟨0, 0, [], []⟩

/-! ### Packets and emitted messages -/

/-- Parsed ARP payload of a packet-in. -/
structure ArpPkt where
  opcode : Nat
  src_mac : String
  src_ip : String
  dst_mac : String
  dst_ip : String
deriving DecidableEq, Repr

/-- The transport layer of a parsed IPv4 packet: exactly one of TCP, UDP, ICMP,
or some other IP protocol (carrying no transport ports). -/
inductive L4 where
  | tcp (src_port dst_port : Nat)
  | udp (src_port dst_port : Nat)
  | icmp
  | other (proto : Nat)
deriving DecidableEq, Repr

/-- Parsed IPv4 payload of a packet-in. -/
structure Ipv4Pkt where
  src : String
  dst : String
  l4 : L4
deriving DecidableEq, Repr

/-- Payload alternatives of an Ethernet frame (an Ethernet frame carries at
most one of an ARP or an IPv4 packet). -/
inductive PktPayload where
  | arpP (a : ArpPkt)
  | ipP (ip : Ipv4Pkt)
  | otherP
deriving DecidableEq, Repr

/-- A packet-in event: ingress metadata plus the parsed frame. `buffer_id = none`
models `OFP_NO_BUFFER`. -/
structure PacketIn where
  dpid : Nat
  in_port : Nat
  eth_src : String
  eth_dst : String
  eth_type : Nat
  payload : PktPayload
  buffer_id : Option Nat
deriving DecidableEq, Repr

/-- An OpenFlow match as built by `parser.OFPMatch(**kwargs)`: absent fields
are wildcards. -/
structure OFPMatch where
  eth_type : Option Nat
  ipv4_src : Option String
  ipv4_dst : Option String
  ip_proto : Option Nat
  tcp_src : Option Nat
  tcp_dst : Option Nat
  udp_src : Option Nat
  udp_dst : Option Nat
deriving DecidableEq, Repr

def OFPMatch.empty : OFPMatch := ⟨none, none, none, none, none, none, none, none⟩

/-- The OpenFlow actions the controller emits. -/
inductive Action where
  | setEthDst (mac : String)
  | setEthSrc (mac : String)
  | setIpv4Dst (ip : String)
  | setIpv4Src (ip : String)
  | output (port : Nat)
deriving DecidableEq, Repr

/-- Data carried by a packet-out: the triggering packet-in's own payload, or a
synthesized ARP reply (ethernet + ARP fields of the reply the controller builds). -/
inductive OutData where
  | original
  | arpReply (eth_dst eth_src : String) (opcode : Nat)
      (arp_src_mac arp_src_ip arp_dst_mac arp_dst_ip : String)
deriving DecidableEq, Repr

/-- Messages the controller sends to a switch. -/
inductive Msg where
  | flowMod (priority : Nat) (mtch : OFPMatch) (actions : List Action)
      (idle_timeout hard_timeout : Nat)
  | packetOut (buffer_id : Option Nat) (in_port : Nat) (actions : List Action)
      (data : Option OutData)
deriving DecidableEq, Repr

/-! ### ARP handling for the VIP (`SDNRest.handle_arp_for_vip`) -/

/-- `SDNRest.handle_arp_for_vip`: on an ARP request targeting the virtual IP,
bump the `arp_requests` counter and inject one synthesized ARP reply (source
MAC = virtual MAC) as a packet-out on the ingress port; otherwise do nothing. -/
def handle_arp_for_vip (c : Controller) (in_port : Nat) (eth_src : String)
    (a : ArpPkt) : Controller × List Msg :=
  if a.opcode ≠ ARP_REQUEST then (c, [])
  else if a.dst_ip ≠ VIRTUAL_IP then (c, [])
  else
    let c' := { c with vip_stats :=
      { c.vip_stats with arp_requests := c.vip_stats.arp_requests + 1 } }
    (c', [Msg.packetOut none OFPP_CONTROLLER [Action.output in_port]
      (some (OutData.arpReply eth_src VIRTUAL_MAC ARP_REPLY
        VIRTUAL_MAC VIRTUAL_IP a.src_mac a.src_ip))])

/-! ### Backend selection (`SDNRest.select_server_with_drl`) -/

/-- Outcome of the guarded DRL-agent interaction inside
`select_server_with_drl`.  The agent and the server monitor are external
capabilities; the controller logic observes only whether `self.drl_agent` is
`None` (`noAgent`), the `try` block reaches `self.drl_agent.act` and gets back
an action (`acts`), or some step of the `try` block raises (`raises`). -/
inductive AgentCall where
  | noAgent
  | acts (action : Nat)
  | raises
deriving DecidableEq, Repr

/-- `SDNRest.select_server_with_drl`.  Returns the selected backend address,
its pool entry, and the updated state; `none` models an uncaught Python
exception (indexing or `%` on an empty pool, or a failed pool lookup). -/
def select_server_with_drl (c : Controller) (agent : AgentCall)
    (client_ip : String) : Option (String × ServerInfo × Controller) :=
  match agent with
  | .noAgent =>
    let server_ips := c.server_pool.map Prod.fst
    if server_ips.length = 0 then none
    else
      match server_ips.get? (c.vip_stats.total_requests % server_ips.length) with
      | none => none
      | some selected_ip =>
        match dictGet? c.server_pool selected_ip with
        | none => none
        | some info => some (selected_ip, info, c)
  | .acts action =>
    let server_ips := pySorted strLe (c.server_pool.map Prod.fst)
    match (if action < server_ips.length
           then server_ips.get? action else server_ips.get? 0) with
    | none => none
    | some selected_ip =>
      match dictGet? c.server_pool selected_ip with
      | none => none
      | some info =>
        let c' := { c with vip_stats := { c.vip_stats with
          agent_decisions :=
            c.vip_stats.agent_decisions ++ [(client_ip, selected_ip, action)] } }
        some (selected_ip, info, c')
  | .raises =>
    match (c.server_pool.map Prod.fst).get? 0 with
    | none => none
    | some selected_ip =>
      match dictGet? c.server_pool selected_ip with
      | none => none
      | some info => some (selected_ip, info, c)

/-! ### VIP packet handling (`SDNRest.handle_vip_packet`) -/

/-- Transport-port extraction at the top of `handle_vip_packet`:
`none` models the `else: return` path for protocols other than TCP/UDP/ICMP.
Returns `(client_port, dst_port, proto)`. -/
def l4info : L4 → Option (Nat × Nat × Nat)
  | .tcp s d => some (s, d, 6)
  | .udp s d => some (s, d, 17)
  | .icmp => some (0, 0, 1)
  | .other _ => none

/-- The session key `(client_ip, client_port)` of a VIP packet, when the
packet's protocol is one the engine handles. -/
def sessionKeyOf (ip : Ipv4Pkt) : Option (String × Nat) :=
  (l4info ip.l4).map fun t => (ip.src, t.1)

/-- The forward DNAT match (`match_kwargs` block of `handle_vip_packet`):
client → VIP, plus transport ports for TCP (proto 6) and UDP (proto 17) only. -/
def forward_match (client_ip : String) (client_port dst_port proto : Nat) :
    OFPMatch :=
  let m := { OFPMatch.empty with
    eth_type := some ETH_TYPE_IP, ipv4_src := some client_ip,
    ipv4_dst := some VIRTUAL_IP, ip_proto := some proto }
  if proto = 6 then
    { m with tcp_src := some client_port, tcp_dst := some dst_port }
  else if proto = 17 then
    { m with udp_src := some client_port, udp_dst := some dst_port }
  else m

/-- The reverse un-NAT match (`reverse_match_kwargs` block): server → client
with swapped transport ports for TCP/UDP only. -/
def reverse_match (server_ip client_ip : String)
    (client_port dst_port proto : Nat) : OFPMatch :=
  let m := { OFPMatch.empty with
    eth_type := some ETH_TYPE_IP, ipv4_src := some server_ip,
    ipv4_dst := some client_ip, ip_proto := some proto }
  if proto = 6 then
    { m with tcp_src := some dst_port, tcp_dst := some client_port }
  else if proto = 17 then
    { m with udp_src := some dst_port, udp_dst := some client_port }
  else m

/-- The flow-installation and packet-out tail of `handle_vip_packet`
(lines after the backend is fixed): forward DNAT flow-mod at priority 4000,
reverse un-NAT flow-mod at priority 4000, then the immediate packet-out of the
triggering packet with the forward actions. -/
def vip_install_msgs (c : Controller) (p : PacketIn) (client_ip : String)
    (client_port dst_port proto : Nat) (selected_ip : String)
    (info : ServerInfo) : List Msg :=
  let out_port := if p.dpid = info.switch then info.port else 1
  let actions := [Action.setEthDst info.mac, Action.setIpv4Dst selected_ip,
    Action.output out_port]
  let flow_timeout := if c.training_mode then 10 else 30
  let client_out_port :=
    (dictGet? c.mac_to_port (p.dpid, p.eth_src)).getD p.in_port
  let reverse_actions := [Action.setEthSrc VIRTUAL_MAC,
    Action.setIpv4Src VIRTUAL_IP, Action.output client_out_port]
  [Msg.flowMod 4000 (forward_match client_ip client_port dst_port proto)
      actions flow_timeout (flow_timeout * 2),
   Msg.flowMod 4000 (reverse_match selected_ip client_ip client_port dst_port proto)
      reverse_actions flow_timeout (flow_timeout * 2),
   Msg.packetOut p.buffer_id p.in_port actions
      (if p.buffer_id = none then some OutData.original else none)]

/-- `SDNRest.handle_vip_packet`: session lookup / backend selection, session
caching, VIP statistics, DNAT flow installation, immediate packet-out.
`none` models an uncaught Python exception (a `server_pool` lookup failure or
an empty pool inside `select_server_with_drl`). -/
def handle_vip_packet (c : Controller) (agent : AgentCall) (p : PacketIn)
    (ip : Ipv4Pkt) : Option (Controller × List Msg) :=
  match l4info ip.l4 with
  | none => some (c, [])
  | some (client_port, dst_port, proto) =>
    let session_key := (ip.src, client_port)
    let cached := if c.training_mode then none
                  else dictGet? c.vip_sessions session_key
    match cached with
    | some selected_ip =>
      match dictGet? c.server_pool selected_ip with
      | none => none
      | some info =>
        some (c, vip_install_msgs c p ip.src client_port dst_port proto
          selected_ip info)
    | none =>
      match select_server_with_drl c agent ip.src with
      | none => none
      | some (selected_ip, _, c1) =>
        let c2 := if c1.training_mode then c1
          else { c1 with
            vip_sessions := dictSet c1.vip_sessions session_key selected_ip }
        let c3 := { c2 with vip_stats := { c2.vip_stats with
          total_requests := c2.vip_stats.total_requests + 1,
          server_selections := dictSet c2.vip_stats.server_selections selected_ip
            ((dictGet? c2.vip_stats.server_selections selected_ip).getD 0 + 1) } }
        match dictGet? c3.server_pool selected_ip with
        | none => none
        | some info =>
          some (c3, vip_install_msgs c3 p ip.src client_port dst_port proto
            selected_ip info)

/-! ### Learning switch and packet-in dispatch (`SDNRest._packet_in_handler`) -/

/-- The regular L2-learning tail of `_packet_in_handler`: learn
`(dpid, eth_src) → in_port`, learn `(dpid, arp.src_ip) → in_port` for ARP
frames, then packet-out to the learned port of `eth_dst` or flood.  (The
flow-install block of this path is commented out in the source, so the
learning path emits no flow-mods.) -/
def l2_learning (c : Controller) (p : PacketIn) : Controller × List Msg :=
  let c1 := { c with
    mac_to_port := dictSet c.mac_to_port (p.dpid, p.eth_src) p.in_port }
  let c2 := match p.payload with
    | .arpP a =>
      { c1 with host_ports := dictSet c1.host_ports (p.dpid, a.src_ip) p.in_port }
    | _ => c1
  let out_port := (dictGet? c2.mac_to_port (p.dpid, p.eth_dst)).getD OFPP_FLOOD
  let data := if p.buffer_id = none then some OutData.original else none
  (c2, [Msg.packetOut p.buffer_id p.in_port [Action.output out_port] data])

/-- `SDNRest._packet_in_handler`: drop LLDP/IPv6 frames, answer ARP for the
virtual IP, hand VIP-destined IPv4 traffic to the VIP engine, and fall back to
L2 learning otherwise. -/
def packet_in_handler (c : Controller) (agent : AgentCall) (p : PacketIn) :
    Option (Controller × List Msg) :=
  if p.eth_type = ETH_TYPE_LLDP then some (c, [])
  else if p.eth_type = ETH_TYPE_IPV6 then some (c, [])
  else
    match p.payload with
    | .arpP a =>
      if a.dst_ip = VIRTUAL_IP then
        some (handle_arp_for_vip c p.in_port p.eth_src a)
      else some (l2_learning c p)
    | .ipP ip =>
      if ip.dst = VIRTUAL_IP then handle_vip_packet c agent p ip
      else some (l2_learning c p)
    | .otherP => some (l2_learning c p)

/-! ### Connection lifecycle and stats handlers -/

/-- `SDNRest.switch_features_handler`: installs the priority-0 table-miss rule
on the connecting datapath.  The features reply's body (`reported_ports`
stands for any port information it might list) is never read: the handler uses
only the datapath handle, and controller state is unchanged. -/
def switch_features_handler (c : Controller) (dpid : Nat)
    (reported_ports : List Nat) : Controller × List Msg :=
  (c, [Msg.flowMod 0 OFPMatch.empty
    [Action.output OFPP_CONTROLLER] 0 0])

/-- `SDNRest._state_change_handler`: register the dpid on `MAIN_DISPATCHER`
(`connected = true`), pop it otherwise. -/
def state_change_handler (c : Controller) (dpid : Nat) (connected : Bool) :
    Controller :=
  if connected then
    { c with datapaths :=
      if dpid ∈ c.datapaths then c.datapaths else c.datapaths ++ [dpid] }
  else { c with datapaths := c.datapaths.filter (fun d => d ≠ dpid) }

/-- One entry of a port-stats reply body. -/
structure PortStat where
  port_no : Nat
  tx_bytes : Nat
deriving DecidableEq, Repr

/-- `SDNRest.port_stats_handler`: store `tx_bytes` under `(dpid, port_no)` for
every entry of the reply body, with no check that the dpid is registered. -/
def port_stats_handler (c : Controller) (dpid : Nat) (body : List PortStat) :
    Controller :=
  let ps := body.foldl (fun ps st => dictSet ps (dpid, st.port_no) st.tx_bytes)
    c.port_stats
  { c with port_stats := ps }

/-- One entry of a flow-stats reply body; `match_repr` is the stringified
match used as part of the key. -/
structure FlowStat where
  match_repr : String
  packet_count : Nat
  byte_count : Nat
deriving DecidableEq, Repr

/-- `SDNRest.flow_stats_handler`: store counters under `(dpid, match_repr)`
for every entry of the reply body, with no check that the dpid is registered. -/
def flow_stats_handler (c : Controller) (dpid : Nat) (body : List FlowStat) :
    Controller :=
  let fs := body.foldl
    (fun fs st => dictSet fs (dpid, st.match_repr) (st.packet_count, st.byte_count))
    c.flow_stats
  { c with flow_stats := fs }

/-- `SDNRest.port_desc_handler`: record the sorted list of reported port
numbers, excluding `OFPP_LOCAL`, under the dpid. -/
def port_desc_handler (c : Controller) (dpid : Nat) (body : List Nat) :
    Controller :=
  let ports := pySorted (fun a b => decide (a ≤ b))
    (body.filter (fun p => p ≠ OFPP_LOCAL))
  { c with port_desc := dictSet c.port_desc dpid ports }

/-! ### Control API (`SDNRestController`) -/

/-- Response body of the `set_training_mode` endpoint. -/
structure TrainingModeResp where
  training_mode : Bool
  sessions_cleared : Bool
deriving DecidableEq, Repr

/-- `SDNRestController.set_training_mode`: set the flag; clear the session
table only when `enabled` is true. -/
def set_training_mode (c : Controller) (enabled : Bool) :
    Controller × TrainingModeResp :=
  let c1 := { c with training_mode := enabled }
  if enabled then ({ c1 with vip_sessions := [] }, ⟨enabled, enabled⟩)
  else (c1, ⟨enabled, enabled⟩)

/-- `SDNRestController.get_ports`: the port list recorded for the dpid, `[]`
if none. -/
def get_ports (c : Controller) (dpid : Nat) : List Nat :=
  (dictGet? c.port_desc dpid).getD []

/-! ### Spec-side observation helpers -/

/-- The backend a VIP handling run rewrote the destination to: the argument of
the `setIpv4Dst` action of the first installed flow rule. -/
def backendOf : List Msg → Option String
  | Msg.flowMod _ _ acts _ _ :: _ =>
    acts.findSome? fun a => match a with
      | Action.setIpv4Dst ip => some ip
      | _ => none
  | _ => none

/-- Run a list of VIP packet-ins through `handle_vip_packet`, collecting the
emitted message batches; `none` as soon as one handling raises. -/
def runVip (c : Controller) :
    List (AgentCall × PacketIn × Ipv4Pkt) → Option (Controller × List (List Msg))
  | [] => some (c, [])
  | (ag, p, ip) :: rest =>
    match handle_vip_packet c ag p ip with
    | none => none
    | some (c', msgs) =>
      match runVip c' rest with
      | none => none
      | some (cEnd, traces) => some (cEnd, msgs :: traces)

/-- Every backend cached in the session table is a key of the server pool
(so its pool lookup succeeds). -/
def SessionsValid (c : Controller) : Prop :=
  ∀ k b, dictGet? c.vip_sessions k = some b → b ∈ c.server_pool.map Prod.fst

/-! ### Association-list and sorting lemmas -/

theorem dictGet?_dictSet_self {α β : Type} [DecidableEq α]
    (d : List (α × β)) (k : α) (v : β) : dictGet? (dictSet d k v) k = some v := by
  induction d with
  | nil => simp [dictSet, dictGet?]
  | cons hd tl ih =>
    obtain ⟨k', v'⟩ := hd
    by_cases h : k' = k
    · simp [dictSet, dictGet?, h]
    · simp [dictSet, dictGet?, h, ih]

theorem dictGet?_dictSet_ne {α β : Type} [DecidableEq α]
    (d : List (α × β)) (k k' : α) (v : β) (h : k' ≠ k) :
    dictGet? (dictSet d k v) k' = dictGet? d k' := by
  induction d with
  | nil => simp [dictSet, dictGet?, Ne.symm h]
  | cons hd tl ih =>
    obtain ⟨a, b⟩ := hd
    by_cases ha : a = k
    · subst ha
      simp [dictSet, dictGet?, Ne.symm h]
    · simp [dictSet, dictGet?, ha, ih]

theorem dictGet?_dictSet_cases {α β : Type} [DecidableEq α]
    (d : List (α × β)) (k k' : α) (v b : β)
    (h : dictGet? (dictSet d k v) k' = some b) :
    b = v ∨ dictGet? d k' = some b := by
  by_cases hk : k' = k
  · subst hk
    rw [dictGet?_dictSet_self] at h
    exact Or.inl (Option.some.inj h).symm
  · rw [dictGet?_dictSet_ne d k k' v hk] at h
    exact Or.inr h

theorem mem_keys_of_dictGet? {α β : Type} [DecidableEq α]
    {d : List (α × β)} {k : α} {v : β} (h : dictGet? d k = some v) :
    k ∈ d.map Prod.fst := by
  induction d with
  | nil => simp [dictGet?] at h
  | cons hd tl ih =>
    obtain ⟨k', v'⟩ := hd
    by_cases hk : k' = k
    · subst hk; simp
    · simp only [dictGet?, if_neg hk] at h
      simp [ih h]

theorem dictGet?_isSome_of_mem_keys {α β : Type} [DecidableEq α]
    {d : List (α × β)} {k : α} (h : k ∈ d.map Prod.fst) :
    ∃ v, dictGet? d k = some v := by
  induction d with
  | nil => simp at h
  | cons hd tl ih =>
    obtain ⟨k', v'⟩ := hd
    by_cases hk : k' = k
    · exact ⟨v', by simp [dictGet?, hk]⟩
    · have hmem : k ∈ tl.map Prod.fst := by
        rcases (by simpa using h : k = k' ∨ k ∈ tl.map Prod.fst) with h1 | h2
        · exact absurd h1.symm hk
        · exact h2
      obtain ⟨v, hv⟩ := ih hmem
      exact ⟨v, by simp [dictGet?, hk, hv]⟩

theorem mem_insertSorted {α : Type} (le : α → α → Bool) (x y : α) (l : List α) :
    y ∈ insertSorted le x l ↔ y = x ∨ y ∈ l := by
  induction l with
  | nil => simp [insertSorted]
  | cons hd tl ih =>
    cases h : le x hd with
    | true => simp [insertSorted, h]
    | false =>
      simp only [insertSorted, h]
      simp [ih]
      tauto

theorem mem_pySorted {α : Type} (le : α → α → Bool) (x : α) (l : List α) :
    x ∈ pySorted le l ↔ x ∈ l := by
  induction l with
  | nil => simp [pySorted]
  | cons hd tl ih => simp [pySorted, mem_insertSorted, ih]

theorem length_insertSorted {α : Type} (le : α → α → Bool) (x : α) (l : List α) :
    (insertSorted le x l).length = l.length + 1 := by
  induction l with
  | nil => rfl
  | cons hd tl ih =>
    cases h : le x hd <;> simp [insertSorted, h, ih]

theorem length_pySorted {α : Type} (le : α → α → Bool) (l : List α) :
    (pySorted le l).length = l.length := by
  induction l with
  | nil => rfl
  | cons hd tl ih => simp [pySorted, length_insertSorted, ih]

/-! ### Properties of `select_server_with_drl` -/

theorem select_server_frame (c : Controller) (ag : AgentCall) (cip sel : String)
    (info : ServerInfo) (c' : Controller)
    (h : select_server_with_drl c ag cip = some (sel, info, c')) :
    dictGet? c.server_pool sel = some info ∧
    c'.server_pool = c.server_pool ∧ c'.vip_sessions = c.vip_sessions ∧
    c'.training_mode = c.training_mode ∧ c'.mac_to_port = c.mac_to_port ∧
    c'.vip_stats.total_requests = c.vip_stats.total_requests ∧
    c'.vip_stats.server_selections = c.vip_stats.server_selections := by
  cases ag with
  | noAgent =>
    simp only [select_server_with_drl] at h
    split at h
    · exact absurd h (by simp)
    · split at h
      · exact absurd h (by simp)
      · split at h
        · exact absurd h (by simp)
        · rename_i hinfo
          obtain ⟨rfl, rfl, rfl⟩ := by simpa using h
          exact ⟨hinfo, rfl, rfl, rfl, rfl, rfl, rfl⟩
  | acts a =>
    simp only [select_server_with_drl] at h
    split at h
    · exact absurd h (by simp)
    · split at h
      · exact absurd h (by simp)
      · rename_i hinfo
        obtain ⟨rfl, rfl, rfl⟩ := by simpa using h
        exact ⟨hinfo, rfl, rfl, rfl, rfl, rfl, rfl⟩
  | raises =>
    simp only [select_server_with_drl] at h
    split at h
    · exact absurd h (by simp)
    · split at h
      · exact absurd h (by simp)
      · rename_i hinfo
        obtain ⟨rfl, rfl, rfl⟩ := by simpa using h
        exact ⟨hinfo, rfl, rfl, rfl, rfl, rfl, rfl⟩

theorem get?_total {α : Type} (l : List α) (i : Nat) (h : i < l.length) :
    ∃ x, l.get? i = some x ∧ x ∈ l := by
  induction l generalizing i with
  | nil => simp at h
  | cons hd tl ih =>
    cases i with
    | zero => exact ⟨hd, rfl, by simp⟩
    | succ n =>
      obtain ⟨x, hx, hmem⟩ := ih n (by simpa using h)
      exact ⟨x, by simpa using hx, by simp [hmem]⟩

theorem select_server_total (c : Controller) (ag : AgentCall) (cip : String)
    (hpool : c.server_pool ≠ []) :
    ∃ sel info c', select_server_with_drl c ag cip = some (sel, info, c') := by
  have hlen : 0 < (c.server_pool.map Prod.fst).length := by
    simpa [List.length_pos] using hpool
  cases ag with
  | noAgent =>
    have hidx := Nat.mod_lt c.vip_stats.total_requests hlen
    obtain ⟨sel, hget, hmem⟩ := get?_total (c.server_pool.map Prod.fst) _ hidx
    obtain ⟨info, hinfo⟩ := dictGet?_isSome_of_mem_keys hmem
    refine ⟨sel, info, c, ?_⟩
    simp only [select_server_with_drl]
    rw [if_neg (by omega), hget]
    simp [hinfo]
  | acts a =>
    have hlen' : 0 < (pySorted strLe (c.server_pool.map Prod.fst)).length := by
      rw [length_pySorted]; exact hlen
    by_cases ha : a < (pySorted strLe (c.server_pool.map Prod.fst)).length
    · obtain ⟨sel, hget, hmem⟩ := get?_total (pySorted strLe (c.server_pool.map Prod.fst)) a ha
      obtain ⟨info, hinfo⟩ :=
        dictGet?_isSome_of_mem_keys ((mem_pySorted strLe _ _).mp hmem)
      refine ⟨sel, info, { c with vip_stats := { c.vip_stats with
        agent_decisions := c.vip_stats.agent_decisions ++ [(cip, sel, a)] } }, ?_⟩
      simp only [select_server_with_drl]
      rw [if_pos ha, hget]
      simp [hinfo]
    · obtain ⟨sel, hget, hmem⟩ :=
        get?_total (pySorted strLe (c.server_pool.map Prod.fst)) 0 hlen'
      obtain ⟨info, hinfo⟩ :=
        dictGet?_isSome_of_mem_keys ((mem_pySorted strLe _ _).mp hmem)
      refine ⟨sel, info, { c with vip_stats := { c.vip_stats with
        agent_decisions := c.vip_stats.agent_decisions ++ [(cip, sel, a)] } }, ?_⟩
      simp only [select_server_with_drl]
      rw [if_neg ha, hget]
      simp [hinfo]
  | raises =>
    obtain ⟨sel, hget, hmem⟩ := get?_total (c.server_pool.map Prod.fst) 0 hlen
    obtain ⟨info, hinfo⟩ := dictGet?_isSome_of_mem_keys hmem
    refine ⟨sel, info, c, ?_⟩
    simp only [select_server_with_drl]
    rw [hget]
    simp [hinfo]


theorem select_server_mem_pool (c : Controller) (ag : AgentCall)
    (cip sel : String) (info : ServerInfo) (c' : Controller)
    (h : select_server_with_drl c ag cip = some (sel, info, c')) :
    sel ∈ c.server_pool.map Prod.fst :=
  mem_keys_of_dictGet? (select_server_frame c ag cip sel info c' h).1

theorem select_server_raises_first (c : Controller) (cip b0 : String)
    (info0 : ServerInfo) (restPool : List (String × ServerInfo))
    (hpool : c.server_pool = (b0, info0) :: restPool) :
    select_server_with_drl c .raises cip = some (b0, info0, c) := by
  simp only [select_server_with_drl, hpool]
  simp [dictGet?]

/-! ### Properties of `handle_vip_packet` -/

theorem backendOf_vip_install (c : Controller) (p : PacketIn) (cip : String)
    (cp dp pr : Nat) (sel : String) (info : ServerInfo) :
    backendOf (vip_install_msgs c p cip cp dp pr sel info) = some sel := rfl

theorem handle_vip_msgs_shape (c : Controller) (ag : AgentCall) (p : PacketIn)
    (ip : Ipv4Pkt) (c' : Controller) (msgs : List Msg)
    (h : handle_vip_packet c ag p ip = some (c', msgs)) :
    msgs = [] ∨ ∃ cp dp pr sel info,
      l4info ip.l4 = some (cp, dp, pr) ∧
      dictGet? c'.server_pool sel = some info ∧
      msgs = vip_install_msgs c' p ip.src cp dp pr sel info := by
  cases hE : l4info ip.l4 with
  | none =>
    left
    simp only [handle_vip_packet, hE] at h
    exact ((by simpa using h : c = c' ∧ [] = msgs).2).symm
  | some t =>
    obtain ⟨cp, dp, pr⟩ := t
    right
    simp only [handle_vip_packet, hE] at h
    split at h
    · rename_i sel hcache
      split at h
      · exact absurd h (by simp)
      · rename_i info hinfo
        obtain ⟨rfl, rfl⟩ := by simpa using h
        exact ⟨cp, dp, pr, sel, info, rfl, hinfo, rfl⟩
    · split at h
      · exact absurd h (by simp)
      · rename_i sel info0 c1 hsel
        split at h
        · exact absurd h (by simp)
        · rename_i info hinfo
          obtain ⟨rfl, rfl⟩ := by simpa using h
          exact ⟨cp, dp, pr, sel, info, rfl, hinfo, rfl⟩

theorem handle_vip_cached (c : Controller) (ag : AgentCall) (p : PacketIn)
    (ip : Ipv4Pkt) (cp dp pr : Nat) (b : String) (info : ServerInfo)
    (hl4 : l4info ip.l4 = some (cp, dp, pr))
    (hmode : c.training_mode = false)
    (hsess : dictGet? c.vip_sessions (ip.src, cp) = some b)
    (hpool : dictGet? c.server_pool b = some info) :
    handle_vip_packet c ag p ip =
      some (c, vip_install_msgs c p ip.src cp dp pr b info) := by
  simp [handle_vip_packet, hl4, hmode, hsess, hpool]

theorem handle_vip_success_state (c : Controller) (ag : AgentCall) (p : PacketIn)
    (ip : Ipv4Pkt) (cp dp pr : Nat) (c' : Controller) (msgs : List Msg) (b : String)
    (hl4 : l4info ip.l4 = some (cp, dp, pr))
    (hmode : c.training_mode = false)
    (h : handle_vip_packet c ag p ip = some (c', msgs))
    (hb : backendOf msgs = some b) :
    dictGet? c'.vip_sessions (ip.src, cp) = some b ∧
    c'.training_mode = false ∧
    (∃ info, dictGet? c'.server_pool b = some info) := by
  simp only [handle_vip_packet, hl4, hmode] at h
  simp only [Bool.false_eq_true, if_false] at h
  split at h
  · rename_i sel hcache
    split at h
    · exact absurd h (by simp)
    · rename_i info hinfo
      obtain ⟨rfl, rfl⟩ := by simpa using h
      have hisb : sel = b := by
        have hbv := backendOf_vip_install c p ip.src cp dp pr sel info
        rw [hbv] at hb
        exact Option.some.inj hb
      subst hisb
      exact ⟨hcache, hmode, info, hinfo⟩
  · rename_i hcache
    split at h
    · exact absurd h (by simp)
    · rename_i sel info0 c1 hsel
      have hframe := select_server_frame c ag ip.src sel info0 c1 hsel
      have htr : c1.training_mode = false := hframe.2.2.2.1.trans hmode
      rw [htr] at h
      simp only [Bool.false_eq_true, if_false] at h
      split at h
      · exact absurd h (by simp)
      · rename_i info hinfo
        obtain ⟨rfl, rfl⟩ := by simpa using h
        have hisb : sel = b := by
          rw [backendOf_vip_install] at hb
          exact Option.some.inj hb
        subst hisb
        refine ⟨?_, rfl, info, hinfo⟩
        exact dictGet?_dictSet_self c1.vip_sessions (ip.src, cp) sel

theorem handle_vip_preserves_session (c : Controller) (ag : AgentCall)
    (p : PacketIn) (ip : Ipv4Pkt) (c' : Controller) (msgs : List Msg)
    (k : String × Nat) (b : String)
    (hmode : c.training_mode = false)
    (hsess : dictGet? c.vip_sessions k = some b)
    (h : handle_vip_packet c ag p ip = some (c', msgs)) :
    dictGet? c'.vip_sessions k = some b ∧ c'.training_mode = false ∧
    c'.server_pool = c.server_pool ∧ c'.mac_to_port = c.mac_to_port := by
  cases hE : l4info ip.l4 with
  | none =>
    simp only [handle_vip_packet, hE] at h
    obtain ⟨rfl, rfl⟩ := by simpa using h
    exact ⟨hsess, hmode, rfl, rfl⟩
  | some t =>
    obtain ⟨cp, dp, pr⟩ := t
    simp only [handle_vip_packet, hE, hmode] at h
    simp only [Bool.false_eq_true, if_false] at h
    split at h
    · rename_i sel hcache
      split at h
      · exact absurd h (by simp)
      · rename_i info hinfo
        obtain ⟨rfl, rfl⟩ := by simpa using h
        exact ⟨hsess, hmode, rfl, rfl⟩
    · rename_i hcache
      split at h
      · exact absurd h (by simp)
      · rename_i sel info0 c1 hsel
        have hframe := select_server_frame c ag ip.src sel info0 c1 hsel
        have htr : c1.training_mode = false := hframe.2.2.2.1.trans hmode
        rw [htr] at h
        simp only [Bool.false_eq_true, if_false] at h
        split at h
        · exact absurd h (by simp)
        · rename_i info hinfo
          obtain ⟨rfl, rfl⟩ := by simpa using h
          have hkne : k ≠ (ip.src, cp) := by
            intro hk
            rw [hk] at hsess
            rw [hsess] at hcache
            exact Option.noConfusion hcache
          refine ⟨?_, rfl, hframe.2.1, hframe.2.2.2.2.1⟩
          show dictGet? (dictSet c1.vip_sessions (ip.src, cp) sel) k = some b
          rw [dictGet?_dictSet_ne c1.vip_sessions (ip.src, cp) k sel hkne,
            hframe.2.2.1]
          exact hsess

theorem runVip_sticky (b : String) (k : String × Nat)
    (rest : List (AgentCall × PacketIn × Ipv4Pkt)) :
    ∀ cS : Controller, cS.training_mode = false →
    dictGet? cS.vip_sessions k = some b →
    (∃ info, dictGet? cS.server_pool b = some info) →
    (∀ x ∈ rest, sessionKeyOf x.2.2 = some k) →
    ∃ cEnd traces, runVip cS rest = some (cEnd, traces) ∧
      (∀ t ∈ traces, backendOf t = some b) ∧
      ∀ rest' : List (AgentCall × PacketIn × Ipv4Pkt),
        rest'.map (fun x => x.2) = rest.map (fun x => x.2) →
        runVip cS rest' = runVip cS rest := by
  induction rest with
  | nil =>
    intro cS hmode hsess hpool hkeys
    refine ⟨cS, [], rfl, by simp, ?_⟩
    intro rest' hmap
    have hnil : rest' = [] := by simpa using hmap
    rw [hnil]
  | cons hd tl ih =>
    intro cS hmode hsess hpool hkeys
    obtain ⟨ag, p, ip⟩ := hd
    have hk : sessionKeyOf ip = some k := hkeys (ag, p, ip) (by simp)
    obtain ⟨⟨cp, dp, pr⟩, hl4, hkey⟩ :
        ∃ t, l4info ip.l4 = some t ∧ (ip.src, t.1) = k := by
      unfold sessionKeyOf at hk
      cases hE : l4info ip.l4 with
      | none => rw [hE] at hk; simp at hk
      | some t => rw [hE] at hk; exact ⟨t, rfl, by simpa using hk⟩
    obtain ⟨info, hinfo⟩ := hpool
    have hsess' : dictGet? cS.vip_sessions (ip.src, cp) = some b := by
      have hkey' : ((ip.src, cp) : String × Nat) = k := hkey
      rw [hkey']
      exact hsess
    have hstep := handle_vip_cached cS ag p ip cp dp pr b info hl4 hmode hsess' hinfo
    obtain ⟨cEnd, traces, hrun, hback, hins⟩ := ih cS hmode hsess ⟨info, hinfo⟩
      (fun x hx => hkeys x (by simp [hx]))
    refine ⟨cEnd, vip_install_msgs cS p ip.src cp dp pr b info :: traces, ?_, ?_, ?_⟩
    · simp only [runVip, hstep, hrun]
    · intro t ht
      rcases List.mem_cons.mp ht with rfl | htl
      · exact backendOf_vip_install cS p ip.src cp dp pr b info
      · exact hback t htl
    · intro rest' hmap
      cases rest' with
      | nil => simp at hmap
      | cons hd' tl' =>
        obtain ⟨ag', p', ip'⟩ := hd'
        have hsplit : (p', ip') = (p, ip) ∧
            tl'.map (fun x => x.2) = tl.map (fun x => x.2) := by simpa using hmap
        obtain ⟨hpi, htl⟩ := hsplit
        obtain ⟨rfl, rfl⟩ : p' = p ∧ ip' = ip := by simpa using hpi
        have hstep' := handle_vip_cached cS ag' p' ip' cp dp pr b info hl4 hmode hsess' hinfo
        simp only [runVip, hstep, hstep', hins tl' htl]

/-- C1: while training mode is off, once a first VIP packet on a session key
has been handled with backend `b`, every further VIP packet-in on the same
session key is also served by `b`, and the handling of those further packets
does not depend on the Selector at all (the cached session is reused; the run
is unchanged under any replacement of the per-packet agent outcomes). -/
theorem C1_vip_session_stickiness
    (c : Controller) (k : String × Nat) (ag0 : AgentCall) (p0 : PacketIn)
    (ip0 : Ipv4Pkt) (rest : List (AgentCall × PacketIn × Ipv4Pkt))
    (c1 : Controller) (msgs0 : List Msg) (b : String)
    (hmode : c.training_mode = false)
    (hk0 : sessionKeyOf ip0 = some k)
    (hkeys : ∀ x ∈ rest, sessionKeyOf x.2.2 = some k)
    (h0 : handle_vip_packet c ag0 p0 ip0 = some (c1, msgs0))
    (hb : backendOf msgs0 = some b) :
    ∃ cEnd traces, runVip c1 rest = some (cEnd, traces) ∧
      (∀ t ∈ traces, backendOf t = some b) ∧
      (∀ rest' : List (AgentCall × PacketIn × Ipv4Pkt),
        rest'.map (fun x => x.2) = rest.map (fun x => x.2) →
        runVip c1 rest' = runVip c1 rest) := by
  obtain ⟨⟨cp, dp, pr⟩, hl4, hkey⟩ :
      ∃ t, l4info ip0.l4 = some t ∧ (ip0.src, t.1) = k := by
    unfold sessionKeyOf at hk0
    cases hE : l4info ip0.l4 with
    | none => rw [hE] at hk0; simp at hk0
    | some t => rw [hE] at hk0; exact ⟨t, rfl, by simpa using hk0⟩
  have hstate := handle_vip_success_state c ag0 p0 ip0 cp dp pr c1 msgs0 b
    hl4 hmode h0 hb
  have hsessk : dictGet? c1.vip_sessions k = some b := by
    have hkey' : ((ip0.src, cp) : String × Nat) = k := hkey
    rw [← hkey']
    exact hstate.1
  exact runVip_sticky b k rest c1 hstate.2.1 hsessk hstate.2.2 hkeys

/-! ### Concrete inputs used by the witnesses -/

/-- A TCP packet from client 10.0.0.5:55555 to the VIP, port 80. -/
def ipTcpW : Ipv4Pkt := ⟨"10.0.0.5", "10.0.0.100", .tcp 55555 80⟩

/-- The packet-in carrying `ipTcpW`, arriving on switch 200, port 5. -/
def pW : PacketIn :=
  { dpid := 200, in_port := 5, eth_src := "00:00:00:00:00:05",
    eth_dst := "aa:aa:aa:aa:aa:aa", eth_type := 0x0800,
    payload := .ipP ipTcpW, buffer_id := none }

/-- The controller state after `handle_vip_packet initController .noAgent pW ipTcpW`. -/
def cTcpRes : Controller :=
  { initController with
    vip_sessions := [(("10.0.0.5", 55555), "10.0.0.1")],
    vip_stats := { initController.vip_stats with
      total_requests := 1, server_selections := [("10.0.0.1", 1)] } }

/-- The messages emitted by that first handling. -/
def msgsTcpRes : List Msg :=
  vip_install_msgs cTcpRes pW "10.0.0.5" 55555 80 6 "10.0.0.1"
    ⟨"00:00:00:00:00:01", 3, 200⟩

/-- Witness for C1: after the first TCP packet of client (10.0.0.5, 55555) is
served by 10.0.0.1, a further packet-in on the same key keeps backend 10.0.0.1
and the run is agent-independent. -/
theorem C1_vip_session_stickiness_witness :
    ∃ cEnd traces,
      runVip cTcpRes [(.raises, pW, ipTcpW)] = some (cEnd, traces) ∧
      (∀ t ∈ traces, backendOf t = some "10.0.0.1") ∧
      (∀ rest' : List (AgentCall × PacketIn × Ipv4Pkt),
        rest'.map (fun x => x.2) = [((.raises : AgentCall), pW, ipTcpW)].map (fun x => x.2) →
        runVip cTcpRes rest' = runVip cTcpRes [(.raises, pW, ipTcpW)]) :=
  C1_vip_session_stickiness initController ("10.0.0.5", 55555) .noAgent pW ipTcpW
    [(.raises, pW, ipTcpW)] cTcpRes msgsTcpRes "10.0.0.1" rfl (by decide) (by decide)
    (by decide) (by decide)

/-- C2: whenever the VIP engine installs a forward DNAT rule for the session
key (client address, client port) with a backend, the same synchronous
handling also installs the matching reverse rule for (backend, key), and the
packet-out of the triggering packet comes only after both flow-mods. -/
theorem C2_forward_has_matching_reverse
    (c : Controller) (ag : AgentCall) (p : PacketIn) (ip : Ipv4Pkt)
    (c' : Controller) (msgs : List Msg)
    (h : handle_vip_packet c ag p ip = some (c', msgs)) (hne : msgs ≠ []) :
    ∃ (cp dp pr : Nat) (b : String) (info : ServerInfo) (coutp ft : Nat),
      l4info ip.l4 = some (cp, dp, pr) ∧
      msgs =
        [Msg.flowMod 4000 (forward_match ip.src cp dp pr)
           [Action.setEthDst info.mac, Action.setIpv4Dst b,
            Action.output (if p.dpid = info.switch then info.port else 1)]
           ft (ft * 2),
         Msg.flowMod 4000 (reverse_match b ip.src cp dp pr)
           [Action.setEthSrc VIRTUAL_MAC, Action.setIpv4Src VIRTUAL_IP,
            Action.output coutp]
           ft (ft * 2),
         Msg.packetOut p.buffer_id p.in_port
           [Action.setEthDst info.mac, Action.setIpv4Dst b,
            Action.output (if p.dpid = info.switch then info.port else 1)]
           (if p.buffer_id = none then some OutData.original else none)] := by
  rcases handle_vip_msgs_shape c ag p ip c' msgs h with
    rfl | ⟨cp, dp, pr, sel, info, hl4, hinfo, rfl⟩
  · exact absurd rfl hne
  · exact ⟨cp, dp, pr, sel, info,
      (dictGet? c'.mac_to_port (p.dpid, p.eth_src)).getD p.in_port,
      if c'.training_mode then 10 else 30, hl4, rfl⟩

/-- Witness for C2 at a concrete TCP packet-in handled from the initial state. -/
theorem C2_forward_has_matching_reverse_witness :
    ∃ (cp dp pr : Nat) (b : String) (info : ServerInfo) (coutp ft : Nat),
      l4info ipTcpW.l4 = some (cp, dp, pr) ∧
      msgsTcpRes =
        [Msg.flowMod 4000 (forward_match ipTcpW.src cp dp pr)
           [Action.setEthDst info.mac, Action.setIpv4Dst b,
            Action.output (if pW.dpid = info.switch then info.port else 1)]
           ft (ft * 2),
         Msg.flowMod 4000 (reverse_match b ipTcpW.src cp dp pr)
           [Action.setEthSrc VIRTUAL_MAC, Action.setIpv4Src VIRTUAL_IP,
            Action.output coutp]
           ft (ft * 2),
         Msg.packetOut pW.buffer_id pW.in_port
           [Action.setEthDst info.mac, Action.setIpv4Dst b,
            Action.output (if pW.dpid = info.switch then info.port else 1)]
           (if pW.buffer_id = none then some OutData.original else none)] :=
  C2_forward_has_matching_reverse initController .noAgent pW ipTcpW
    cTcpRes msgsTcpRes (by decide) (by decide)

/-- C3: a packet-in carrying an ARP request whose target is the virtual IP is
answered with exactly one synthesized ARP reply — source link-layer address
equal to the configured virtual MAC — injected on the ingress port, and the
handling creates no learned-host entry (`mac_to_port` and `host_ports` are
untouched). -/
theorem C3_arp_for_vip
    (c : Controller) (ag : AgentCall) (p : PacketIn) (a : ArpPkt)
    (hpay : p.payload = .arpP a)
    (heth : p.eth_type = ETH_TYPE_ARP)
    (hop : a.opcode = ARP_REQUEST)
    (hdst : a.dst_ip = VIRTUAL_IP) :
    ∃ c', packet_in_handler c ag p =
        some (c', [Msg.packetOut none OFPP_CONTROLLER [Action.output p.in_port]
          (some (OutData.arpReply p.eth_src VIRTUAL_MAC ARP_REPLY
            VIRTUAL_MAC VIRTUAL_IP a.src_mac a.src_ip))]) ∧
      c'.mac_to_port = c.mac_to_port ∧ c'.host_ports = c.host_ports ∧
      c'.vip_sessions = c.vip_sessions := by
  refine ⟨{ c with vip_stats := { c.vip_stats with
    arp_requests := c.vip_stats.arp_requests + 1 } }, ?_, rfl, rfl, rfl⟩
  simp [packet_in_handler, hpay, hdst, handle_arp_for_vip, hop, heth,
    ETH_TYPE_ARP, ETH_TYPE_LLDP, ETH_TYPE_IPV6, ARP_REQUEST]

/-- ARP request for the VIP from client 10.0.0.5. -/
def arpW : ArpPkt :=
  ⟨1, "00:00:00:00:00:05", "10.0.0.5", "00:00:00:00:00:00", "10.0.0.100"⟩

/-- The packet-in carrying `arpW`. -/
def pArpW : PacketIn :=
  { dpid := 200, in_port := 5, eth_src := "00:00:00:00:00:05",
    eth_dst := "ff:ff:ff:ff:ff:ff", eth_type := 0x0806,
    payload := .arpP arpW, buffer_id := none }

/-- Witness for C3 at a concrete ARP request from the initial state. -/
theorem C3_arp_for_vip_witness :
    ∃ c', packet_in_handler initController .noAgent pArpW =
        some (c', [Msg.packetOut none OFPP_CONTROLLER [Action.output pArpW.in_port]
          (some (OutData.arpReply pArpW.eth_src VIRTUAL_MAC ARP_REPLY
            VIRTUAL_MAC VIRTUAL_IP arpW.src_mac arpW.src_ip))]) ∧
      c'.mac_to_port = initController.mac_to_port ∧
      c'.host_ports = initController.host_ports ∧
      c'.vip_sessions = initController.vip_sessions :=
  C3_arp_for_vip initController .noAgent pArpW arpW rfl rfl rfl rfl

theorem handle_vip_fresh (c : Controller) (ag : AgentCall) (p : PacketIn)
    (ip : Ipv4Pkt) (cp dp pr : Nat) (sel : String) (info0 : ServerInfo)
    (c1 : Controller)
    (hl4 : l4info ip.l4 = some (cp, dp, pr))
    (hmiss : (if c.training_mode = true then none
              else dictGet? c.vip_sessions (ip.src, cp)) = none)
    (hsel : select_server_with_drl c ag ip.src = some (sel, info0, c1)) :
    ∃ c', handle_vip_packet c ag p ip =
        some (c', vip_install_msgs c' p ip.src cp dp pr sel info0) ∧
      c'.server_pool = c.server_pool ∧
      c'.training_mode = c.training_mode ∧
      c'.mac_to_port = c.mac_to_port ∧
      c'.vip_stats.total_requests = c.vip_stats.total_requests + 1 ∧
      (c'.vip_sessions = c.vip_sessions ∨
        c'.vip_sessions = dictSet c.vip_sessions (ip.src, cp) sel) := by
  have hframe := select_server_frame c ag ip.src sel info0 c1 hsel
  have hinfo2 : dictGet? c1.server_pool sel = some info0 := by
    rw [hframe.2.1]; exact hframe.1
  cases htc : c1.training_mode with
  | true =>
    refine ⟨{ c1 with vip_stats := { c1.vip_stats with
        total_requests := c1.vip_stats.total_requests + 1,
        server_selections := dictSet c1.vip_stats.server_selections sel
          ((dictGet? c1.vip_stats.server_selections sel).getD 0 + 1) } },
      ?_, hframe.2.1, htc.symm ▸ hframe.2.2.2.1, hframe.2.2.2.2.1, ?_,
      Or.inl hframe.2.2.1⟩
    · simp only [handle_vip_packet, hl4, hmiss, hsel, htc]
      simp [hinfo2, htc]
    · show c1.vip_stats.total_requests + 1 = c.vip_stats.total_requests + 1
      rw [hframe.2.2.2.2.2.1]
  | false =>
    refine ⟨{ c1 with
        vip_sessions := dictSet c1.vip_sessions (ip.src, cp) sel,
        vip_stats := { c1.vip_stats with
          total_requests := c1.vip_stats.total_requests + 1,
          server_selections := dictSet c1.vip_stats.server_selections sel
            ((dictGet? c1.vip_stats.server_selections sel).getD 0 + 1) } },
      ?_, hframe.2.1, htc.symm ▸ hframe.2.2.2.1, hframe.2.2.2.2.1, ?_,
      Or.inr (by rw [hframe.2.2.1])⟩
    · simp only [handle_vip_packet, hl4, hmiss, hsel, htc]
      simp [hinfo2, htc]
    · show c1.vip_stats.total_requests + 1 = c.vip_stats.total_requests + 1
      rw [hframe.2.2.2.2.2.1]

/-- State with a cached VIP session for (10.0.0.5, 55555) → 10.0.0.1 and one
recorded request. -/
def cC4 : Controller :=
  { initController with
    vip_sessions := [(("10.0.0.5", 55555), "10.0.0.1")],
    vip_stats := { initController.vip_stats with total_requests := 1 } }

/-- C4 counterexample: the claim reads *toggling* training mode clears the VIP
session table so that the next packet-in for a previously cached key triggers
a fresh Selector call.  Toggling it *off* does neither: from `cC4` the disable
call leaves the cached session intact, and the next packet-in on that key is
served from the cache with 10.0.0.1 even though a fresh Selector call (here,
round-robin at one prior request) would have returned 10.0.0.2. -/
theorem C4_counterexample :
    (set_training_mode cC4 false).1.vip_sessions =
      [(("10.0.0.5", 55555), "10.0.0.1")] ∧
    ((select_server_with_drl (set_training_mode cC4 false).1 .noAgent
        "10.0.0.5").map (fun r => r.1) = some "10.0.0.2") ∧
    ((handle_vip_packet (set_training_mode cC4 false).1 .noAgent pW ipTcpW).map
        (fun r => backendOf r.2) = some (some "10.0.0.1")) := by decide

/-- C4 (amended): *enabling* training mode via the Control API write endpoint
clears the VIP session table, and the next VIP packet-in — in particular one
for a previously cached session key — performs a fresh Selector call whose
result is the backend used (the request counter is bumped); *disabling*
training mode sets the flag but leaves the session table unchanged. -/
theorem C4_amended_training_toggle
    (c : Controller) (ag : AgentCall) (p : PacketIn) (ip : Ipv4Pkt)
    (cp dp pr : Nat)
    (hl4 : l4info ip.l4 = some (cp, dp, pr))
    (hpool : c.server_pool ≠ []) :
    (set_training_mode c true).1.vip_sessions = [] ∧
    (set_training_mode c false).1.vip_sessions = c.vip_sessions ∧
    ∃ sel info c'' c',
      select_server_with_drl (set_training_mode c true).1 ag ip.src =
        some (sel, info, c'') ∧
      handle_vip_packet (set_training_mode c true).1 ag p ip =
        some (c', vip_install_msgs c' p ip.src cp dp pr sel info) ∧
      c'.vip_stats.total_requests = c.vip_stats.total_requests + 1 := by
  refine ⟨rfl, rfl, ?_⟩
  obtain ⟨sel, info, c'', hsel⟩ :=
    select_server_total (set_training_mode c true).1 ag ip.src hpool
  have hmiss : (if (set_training_mode c true).1.training_mode = true then none
      else dictGet? (set_training_mode c true).1.vip_sessions (ip.src, cp)) =
      none := rfl
  obtain ⟨c', hrun, hp, ht, hm, htot, hsess⟩ :=
    handle_vip_fresh (set_training_mode c true).1 ag p ip cp dp pr sel info c''
      hl4 hmiss hsel
  exact ⟨sel, info, c'', c', hsel, hrun, htot⟩

/-- Witness for the amended C4 from the cached-session state `cC4`. -/
theorem C4_amended_training_toggle_witness :
    (set_training_mode cC4 true).1.vip_sessions = [] ∧
    (set_training_mode cC4 false).1.vip_sessions = cC4.vip_sessions ∧
    ∃ sel info c'' c',
      select_server_with_drl (set_training_mode cC4 true).1 .noAgent ipTcpW.src =
        some (sel, info, c'') ∧
      handle_vip_packet (set_training_mode cC4 true).1 .noAgent pW ipTcpW =
        some (c', vip_install_msgs c' pW ipTcpW.src 55555 80 6 sel info) ∧
      c'.vip_stats.total_requests = cC4.vip_stats.total_requests + 1 :=
  C4_amended_training_toggle cC4 .noAgent pW ipTcpW 55555 80 6 rfl (by decide)

/-- A VIP-destined GRE packet (IP protocol 47, no transport ports). -/
def ipGreW : Ipv4Pkt := ⟨"10.0.0.5", "10.0.0.100", .other 47⟩

/-- The packet-in carrying `ipGreW`. -/
def pGreW : PacketIn := { pW with payload := .ipP ipGreW }

/-- C5 counterexample: the claim says every VIP-destined IPv4 packet without
transport ports is still handled with address/protocol-only rules.  A GRE
packet (protocol 47) to the VIP is instead dropped by the early `return`:
no flow rule is installed and no packet-out is emitted. -/
theorem C5_counterexample :
    packet_in_handler initController .noAgent pGreW = some (initController, []) ∧
    handle_vip_packet initController .noAgent pGreW ipGreW =
      some (initController, []) := by decide

/-- C5 (amended): VIP-destined ICMP packets are handled with forward and
reverse rules matching on addresses and IP protocol only (all four
transport-port match fields are wildcards); VIP-destined IPv4 packets of any
other non-TCP/UDP protocol are returned without installing rules or emitting
a packet-out. -/
theorem C5_amended_icmp_only
    (c : Controller) (ag : AgentCall) (p : PacketIn) (ip : Ipv4Pkt)
    (c' : Controller) (msgs : List Msg)
    (hicmp : ip.l4 = L4.icmp)
    (h : handle_vip_packet c ag p ip = some (c', msgs))
    (prio : Nat) (m : OFPMatch) (acts : List Action) (it ht : Nat)
    (hm : Msg.flowMod prio m acts it ht ∈ msgs)
    (c2 : Controller) (ag2 : AgentCall) (p2 : PacketIn) (ip2 : Ipv4Pkt) (q : Nat)
    (hq : ip2.l4 = L4.other q) :
    (m.ip_proto = some 1 ∧ m.tcp_src = none ∧ m.tcp_dst = none ∧
      m.udp_src = none ∧ m.udp_dst = none) ∧
    handle_vip_packet c2 ag2 p2 ip2 = some (c2, []) := by
  constructor
  · rcases handle_vip_msgs_shape c ag p ip c' msgs h with
      rfl | ⟨cp, dp, pr, sel, info, hl4, hinfo, rfl⟩
    · simp at hm
    · rw [hicmp] at hl4
      simp only [l4info] at hl4
      obtain ⟨rfl, rfl, rfl⟩ : 0 = cp ∧ 0 = dp ∧ 1 = pr := by simpa using hl4
      simp only [vip_install_msgs, List.mem_cons, List.not_mem_nil,
        or_false] at hm
      rcases hm with hm | hm | hm
      · obtain ⟨-, rfl, -⟩ := Msg.flowMod.inj hm
        exact ⟨rfl, rfl, rfl, rfl, rfl⟩
      · obtain ⟨-, rfl, -⟩ := Msg.flowMod.inj hm
        exact ⟨rfl, rfl, rfl, rfl, rfl⟩
      · exact absurd hm (by simp)
  · simp [handle_vip_packet, hq, l4info]

/-- A VIP-destined ICMP echo from client 10.0.0.5. -/
def ipIcmpW : Ipv4Pkt := ⟨"10.0.0.5", "10.0.0.100", .icmp⟩

/-- The packet-in carrying `ipIcmpW`. -/
def pIcmpW : PacketIn := { pW with payload := .ipP ipIcmpW }

/-- The controller state after handling `ipIcmpW` from the initial state. -/
def cIcmpRes : Controller :=
  { initController with
    vip_sessions := [(("10.0.0.5", 0), "10.0.0.1")],
    vip_stats := { initController.vip_stats with
      total_requests := 1, server_selections := [("10.0.0.1", 1)] } }

/-- The messages emitted while handling `ipIcmpW`. -/
def msgsIcmpRes : List Msg :=
  vip_install_msgs cIcmpRes pIcmpW "10.0.0.5" 0 0 1 "10.0.0.1"
    ⟨"00:00:00:00:00:01", 3, 200⟩

/-- Witness for the amended C5: the concrete ICMP run installs port-free
matches, and the concrete GRE packet is ignored. -/
theorem C5_amended_icmp_only_witness :
    ((forward_match ipIcmpW.src 0 0 1).ip_proto = some 1 ∧
      (forward_match ipIcmpW.src 0 0 1).tcp_src = none ∧
      (forward_match ipIcmpW.src 0 0 1).tcp_dst = none ∧
      (forward_match ipIcmpW.src 0 0 1).udp_src = none ∧
      (forward_match ipIcmpW.src 0 0 1).udp_dst = none) ∧
    handle_vip_packet initController .noAgent pGreW ipGreW =
      some (initController, []) :=
  C5_amended_icmp_only initController .noAgent pIcmpW ipIcmpW cIcmpRes msgsIcmpRes
    rfl (by decide) 4000 (forward_match ipIcmpW.src 0 0 1)
    [Action.setEthDst "00:00:00:00:00:01", Action.setIpv4Dst "10.0.0.1",
      Action.output 3] 30 60 (by decide)
    initController .noAgent pGreW ipGreW 47 rfl

/-- C6: if the guarded Selector interaction raises during VIP packet handling
of an uncached session, the engine falls back to the first configured backend
of the pool, still installs the forward and reverse DNAT rules toward it, and
still emits the triggering packet as a packet-out — the error is never
propagated as a failure of packet handling. -/
theorem C6_selector_error_fallback
    (c : Controller) (p : PacketIn) (ip : Ipv4Pkt) (cp dp pr : Nat)
    (b0 : String) (info0 : ServerInfo) (restPool : List (String × ServerInfo))
    (hl4 : l4info ip.l4 = some (cp, dp, pr))
    (hpool : c.server_pool = (b0, info0) :: restPool)
    (hmiss : (if c.training_mode = true then none
              else dictGet? c.vip_sessions (ip.src, cp)) = none) :
    ∃ c' coutp ft,
      handle_vip_packet c .raises p ip =
        some (c',
          [Msg.flowMod 4000 (forward_match ip.src cp dp pr)
             [Action.setEthDst info0.mac, Action.setIpv4Dst b0,
              Action.output (if p.dpid = info0.switch then info0.port else 1)]
             ft (ft * 2),
           Msg.flowMod 4000 (reverse_match b0 ip.src cp dp pr)
             [Action.setEthSrc VIRTUAL_MAC, Action.setIpv4Src VIRTUAL_IP,
              Action.output coutp] ft (ft * 2),
           Msg.packetOut p.buffer_id p.in_port
             [Action.setEthDst info0.mac, Action.setIpv4Dst b0,
              Action.output (if p.dpid = info0.switch then info0.port else 1)]
             (if p.buffer_id = none then some OutData.original else none)]) := by
  have hsel := select_server_raises_first c ip.src b0 info0 restPool hpool
  obtain ⟨c', hrun, hp, ht, hm, htot, hsess⟩ :=
    handle_vip_fresh c .raises p ip cp dp pr b0 info0 c hl4 hmiss hsel
  exact ⟨c', (dictGet? c'.mac_to_port (p.dpid, p.eth_src)).getD p.in_port,
    if c'.training_mode then 10 else 30, hrun⟩

/-- Witness for C6 at a concrete TCP packet-in with a raising Selector. -/
theorem C6_selector_error_fallback_witness :
    ∃ c' coutp ft,
      handle_vip_packet initController .raises pW ipTcpW =
        some (c',
          [Msg.flowMod 4000 (forward_match ipTcpW.src 55555 80 6)
             [Action.setEthDst "00:00:00:00:00:01", Action.setIpv4Dst "10.0.0.1",
              Action.output (if pW.dpid = (200 : Nat) then (3 : Nat) else 1)]
             ft (ft * 2),
           Msg.flowMod 4000 (reverse_match "10.0.0.1" ipTcpW.src 55555 80 6)
             [Action.setEthSrc VIRTUAL_MAC, Action.setIpv4Src VIRTUAL_IP,
              Action.output coutp] ft (ft * 2),
           Msg.packetOut pW.buffer_id pW.in_port
             [Action.setEthDst "00:00:00:00:00:01", Action.setIpv4Dst "10.0.0.1",
              Action.output (if pW.dpid = (200 : Nat) then (3 : Nat) else 1)]
             (if pW.buffer_id = none then some OutData.original else none)]) :=
  C6_selector_error_fallback initController pW ipTcpW 55555 80 6 "10.0.0.1"
    ⟨"00:00:00:00:00:01", 3, 200⟩
    [("10.0.0.2", ⟨"00:00:00:00:00:02", 4, 200⟩),
     ("10.0.0.3", ⟨"00:00:00:00:00:03", 3, 201⟩)] rfl rfl rfl

/-- C7: every flow rule the VIP engine installs carries the fixed priority
4000; the default table-miss rule installed on switch connect has priority 0,
strictly below it; and the learning-switch path installs no flow rule at all
(its flow-install block is commented out in the source), so a VIP
forward/reverse rule outranks both. -/
theorem C7_vip_priority_band
    (c : Controller) (ag : AgentCall) (p : PacketIn) (ip : Ipv4Pkt)
    (c' : Controller) (msgs : List Msg) (prio : Nat) (m : OFPMatch)
    (acts : List Action) (it ht : Nat)
    (h : handle_vip_packet c ag p ip = some (c', msgs))
    (hm : Msg.flowMod prio m acts it ht ∈ msgs) :
    prio = 4000 ∧
    (∀ (c₀ : Controller) (dpid : Nat) (rp : List Nat) (prio' : Nat)
        (m' : OFPMatch) (a' : List Action) (it' ht' : Nat),
      Msg.flowMod prio' m' a' it' ht' ∈ (switch_features_handler c₀ dpid rp).2 →
      prio' < prio) ∧
    (∀ (c₀ : Controller) (p₀ : PacketIn) (prio' : Nat)
        (m' : OFPMatch) (a' : List Action) (it' ht' : Nat),
      Msg.flowMod prio' m' a' it' ht' ∉ (l2_learning c₀ p₀).2) := by
  have hprio : prio = 4000 := by
    rcases handle_vip_msgs_shape c ag p ip c' msgs h with
      rfl | ⟨cp, dp, pr, sel, info, hl4, hinfo, rfl⟩
    · simp at hm
    · simp only [vip_install_msgs, List.mem_cons, List.not_mem_nil,
        or_false] at hm
      rcases hm with hm | hm | hm
      · exact (Msg.flowMod.inj hm).1
      · exact (Msg.flowMod.inj hm).1
      · exact absurd hm (by simp)
  subst hprio
  refine ⟨rfl, ?_, ?_⟩
  · intro c₀ dpid rp prio' m' a' it' ht' hmem
    simp only [switch_features_handler, List.mem_singleton] at hmem
    have h0 := (Msg.flowMod.inj hmem).1
    omega
  · intro c₀ p₀ prio' m' a' it' ht' hmem
    simp [l2_learning] at hmem

/-- Witness for C7 at the concrete TCP run from the initial state. -/
theorem C7_vip_priority_band_witness :
    (4000 : Nat) = 4000 ∧
    (∀ (c₀ : Controller) (dpid : Nat) (rp : List Nat) (prio' : Nat)
        (m' : OFPMatch) (a' : List Action) (it' ht' : Nat),
      Msg.flowMod prio' m' a' it' ht' ∈ (switch_features_handler c₀ dpid rp).2 →
      prio' < 4000) ∧
    (∀ (c₀ : Controller) (p₀ : PacketIn) (prio' : Nat)
        (m' : OFPMatch) (a' : List Action) (it' ht' : Nat),
      Msg.flowMod prio' m' a' it' ht' ∉ (l2_learning c₀ p₀).2) :=
  C7_vip_priority_band initController .noAgent pW ipTcpW cTcpRes msgsTcpRes
    4000 (forward_match ipTcpW.src 55555 80 6)
    [Action.setEthDst "00:00:00:00:00:01", Action.setIpv4Dst "10.0.0.1",
      Action.output 3] 30 60 (by decide) (by decide)

/-- C8 counterexample: the claim says a stats reply for an unregistered
SwitchId is discarded with the snapshot left unchanged.  In the initial state
no switch is registered, yet a port-stats reply for dpid 5 changes the
snapshot: the entry `(5, 1) → 100` is created. -/
theorem C8_counterexample :
    (5 ∉ initController.datapaths) ∧
    initController.port_stats = [] ∧
    (port_stats_handler initController 5 [⟨1, 100⟩]).port_stats =
      [((5, 1), 100)] ∧
    (flow_stats_handler initController 5 [⟨"m", 7, 9⟩]).flow_stats =
      [((5, "m"), (7, 9))] := by decide

/-- C8 (amended): port-stats and flow-stats replies are applied to the stats
snapshot unconditionally — the handlers never consult the datapath registry —
so a reply for a SwitchId that is no longer registered still updates (or
creates) snapshot entries; only the registry itself is unaffected. -/
theorem C8_amended_stats_applied_unconditionally
    (c : Controller) (dpid pn tx pc bc : Nat) (mr : String)
    (hgone : dpid ∉ c.datapaths) :
    dictGet? (port_stats_handler c dpid [⟨pn, tx⟩]).port_stats (dpid, pn) =
      some tx ∧
    dictGet? (flow_stats_handler c dpid [⟨mr, pc, bc⟩]).flow_stats (dpid, mr) =
      some (pc, bc) ∧
    (port_stats_handler c dpid [⟨pn, tx⟩]).datapaths = c.datapaths ∧
    (flow_stats_handler c dpid [⟨mr, pc, bc⟩]).datapaths = c.datapaths := by
  refine ⟨?_, ?_, rfl, rfl⟩
  · show dictGet? (dictSet c.port_stats (dpid, pn) tx) (dpid, pn) = some tx
    exact dictGet?_dictSet_self ..
  · show dictGet? (dictSet c.flow_stats (dpid, mr) (pc, bc)) (dpid, mr) =
      some (pc, bc)
    exact dictGet?_dictSet_self ..

/-- Witness for the amended C8 at dpid 5, never registered. -/
theorem C8_amended_stats_applied_unconditionally_witness :
    (5 ∉ initController.datapaths) ∧
    (dictGet? (port_stats_handler initController 5 [⟨1, 100⟩]).port_stats
      (5, 1) = some 100 ∧
    dictGet? (flow_stats_handler initController 5 [⟨"m", 7, 9⟩]).flow_stats
      (5, "m") = some (7, 9) ∧
    (port_stats_handler initController 5 [⟨1, 100⟩]).datapaths =
      initController.datapaths ∧
    (flow_stats_handler initController 5 [⟨"m", 7, 9⟩]).datapaths =
      initController.datapaths) :=
  ⟨by decide, C8_amended_stats_applied_unconditionally initController 5 1 100 7 9
    "m" (by decide)⟩

/-- C9 counterexample: the claim says the port-list endpoint returns [1,2,3]
immediately after switch 7 connects and its features reply is processed.  The
features handler only installs the table-miss rule and records nothing about
ports, so the endpoint still returns the default `[]`. -/
theorem C9_counterexample :
    get_ports ((switch_features_handler
      (state_change_handler initController 7 true) 7 [1, 2, 3]).1) 7 = [] ∧
    ([] : List Nat) ≠ [1, 2, 3] := by decide

/-- C9 (amended): processing a features reply leaves the port-list endpoint's
answer unchanged (the handler reads nothing but the datapath handle); the
endpoint returns [1,2,3] for a switch only once a port-description stats reply
listing ports 1, 2, 3 — requested by the periodic stats poller, not by the
handshake — has been processed for that switch. -/
theorem C9_amended_ports_after_port_desc
    (c : Controller) (dpid : Nat) (rp : List Nat) :
    get_ports (switch_features_handler c dpid rp).1 dpid = get_ports c dpid ∧
    get_ports (port_desc_handler c dpid [1, 2, 3]) dpid = [1, 2, 3] := by
  refine ⟨rfl, ?_⟩
  show (dictGet? (dictSet c.port_desc dpid
    (pySorted (fun a b => decide (a ≤ b))
      (List.filter (fun p => p ≠ OFPP_LOCAL) [1, 2, 3]))) dpid).getD [] =
    [1, 2, 3]
  rw [dictGet?_dictSet_self]
  decide

/-- C10: every backend-selection path (round-robin without an agent, agent
action in range, out-of-range fallback, exception fallback) yields a key of
the configured server pool; and under the session-table invariant
`SessionsValid` (every cached backend is a pool key — true initially and
preserved by handling), the pool lookup the VIP handler performs after
selection or cache hit never fails: `handle_vip_packet` always returns `some`,
and the invariant still holds afterwards. -/
theorem C10_selection_always_in_pool
    (c : Controller) (ag : AgentCall) (p : PacketIn) (ip : Ipv4Pkt)
    (hpool : c.server_pool ≠ []) (hvalid : SessionsValid c) :
    (∃ sel info c₂, select_server_with_drl c ag ip.src = some (sel, info, c₂) ∧
      sel ∈ c.server_pool.map Prod.fst) ∧
    (∃ c' msgs, handle_vip_packet c ag p ip = some (c', msgs) ∧
      SessionsValid c') := by
  constructor
  · obtain ⟨sel, info, c₂, hsel⟩ := select_server_total c ag ip.src hpool
    exact ⟨sel, info, c₂, hsel,
      select_server_mem_pool c ag ip.src sel info c₂ hsel⟩
  · cases hE : l4info ip.l4 with
    | none =>
      refine ⟨c, [], ?_, hvalid⟩
      simp [handle_vip_packet, hE]
    | some t =>
      obtain ⟨cp, dp, pr⟩ := t
      by_cases hcache : (if c.training_mode = true then none
          else dictGet? c.vip_sessions (ip.src, cp)) = none
      · obtain ⟨sel, info, c₂, hsel⟩ := select_server_total c ag ip.src hpool
        have hmem := select_server_mem_pool c ag ip.src sel info c₂ hsel
        obtain ⟨c', hrun, hpe, hte, hme, htot, hsess⟩ :=
          handle_vip_fresh c ag p ip cp dp pr sel info c₂ hE hcache hsel
        refine ⟨c', _, hrun, ?_⟩
        intro k b hk
        rw [hpe]
        rcases hsess with hs | hs
        · rw [hs] at hk
          exact hvalid k b hk
        · rw [hs] at hk
          rcases dictGet?_dictSet_cases c.vip_sessions (ip.src, cp) k sel b hk
            with rfl | hold
          · exact hmem
          · exact hvalid k b hold
      · obtain ⟨b, hb⟩ : ∃ b, (if c.training_mode = true then none
            else dictGet? c.vip_sessions (ip.src, cp)) = some b := by
          cases hx : (if c.training_mode = true then none
              else dictGet? c.vip_sessions (ip.src, cp)) with
          | none => exact absurd hx hcache
          | some b => exact ⟨b, rfl⟩
        have hmode : c.training_mode = false := by
          cases htm : c.training_mode with
          | false => rfl
          | true => rw [htm] at hb; simp at hb
        have hsessb : dictGet? c.vip_sessions (ip.src, cp) = some b := by
          rw [hmode] at hb
          simpa using hb
        obtain ⟨info, hinfo⟩ := dictGet?_isSome_of_mem_keys (hvalid _ _ hsessb)
        exact ⟨c, _,
          handle_vip_cached c ag p ip cp dp pr b info hE hmode hsessb hinfo,
          hvalid⟩

/-- Witness for C10 with an out-of-range agent action from the initial state. -/
theorem C10_selection_always_in_pool_witness :
    (∃ sel info c₂, select_server_with_drl initController (.acts 7) ipTcpW.src =
        some (sel, info, c₂) ∧
      sel ∈ initController.server_pool.map Prod.fst) ∧
    (∃ c' msgs, handle_vip_packet initController (.acts 7) pW ipTcpW =
        some (c', msgs) ∧ SessionsValid c') :=
  C10_selection_always_in_pool initController (.acts 7) pW ipTcpW (by decide)
    (by intro k b hk; simp [initController, dictGet?] at hk)
